import Mathlib

/-!
A shallow embedding of the `/judge` WebSocket session engine of
`src/api/src/api/v2.js` (the piston code-execution judge), together with
theorems settling the frozen claims about it.

Modelling conventions:

* JavaScript values that the handler inspects dynamically are modelled by
  `JsVal` (numbers as `Int`; the handler only ever applies `typeof`,
  truthiness, `||` and `??` to them, none of which need floats for the
  properties at issue).
* The `files` field of an `init` body is tested by the source only through
  `!files` and `Array.isArray(files)`; `FilesField` records exactly those
  three observable cases, and likewise `CasesField` for `run_batch`'s
  `test_cases`.
* `Job.prime`, `Job.compileOnly`, `Job.runTest`, `Job.runBatched` and
  `Job.cleanup` live in `job.js`, which is outside the session layer under
  analysis; the session treats them as opaque awaited calls, so they are
  modelled as an oracle of outcomes (`Except` for throwing calls, an
  `Option String` per `cleanup` invocation where `some e` means the call
  threw `e`).  The arguments the session passes to `runTest`/`runBatched`
  are recorded in `St.calls` so that the argument-normalization performed
  by the session layer is observable.
* `ws.send` after `ws.close` is a no-op and `ws.close` after `ws.close`
  keeps the first code, exactly as in the `ws` library; once the socket is
  closed the transport delivers no further inbound frames, so `step` is the
  identity on closed states.  The `ws.on('close')` handler runs once when
  the socket finally closes, which `runSession` models by applying
  `wsCloseHandler` after the inbound trace.
-/

namespace Piston

/-- JavaScript values as observed by the session handler. -/
inductive JsVal : Type
  | num (n : Int)
  | str (s : String)
  | bool (b : Bool)
  | null
  | undef
  | arr (xs : List Int)
  deriving Repr, DecidableEq

/-- JavaScript truthiness for `JsVal` (`0`, `""`, `false`, `null`,
`undefined` are falsy; any array, including `[]`, is truthy). -/
def truthy : JsVal → Bool
  | .num n => n != 0
  | .str s => s != ""
  | .bool b => b
  | .null => false
  | .undef => false
  | .arr _ => true

/-- JavaScript `v || d` restricted to the uses in the handler. -/
def jsOr (v d : JsVal) : JsVal :=
  if truthy v then v else d

/-- JavaScript `v ?? d` (nullish coalescing). -/
def jsCoalesce (v d : JsVal) : JsVal :=
  match v with
  | .null => d
  | .undef => d
  | _ => v

/-- `true` iff `typeof v === 'number'`. -/
def isNumber : JsVal → Bool
  | .num _ => true
  | _ => false

/-- Per-stage configured values `rt.{timeouts,cpu_times,memory_limits}`. -/
structure StagePair where
  compile : Int
  run : Int
  deriving Repr, DecidableEq

/-- The runtime descriptor fields read by `get_job` and the session
handler (resolved by the runtime registry, which is outside the session
layer and is therefore a parameter everywhere below). -/
structure Runtime where
  language : String
  version_raw : String
  compiled : Bool
  timeouts : StagePair
  cpu_times : StagePair
  memory_limits : StagePair
  deriving Repr, DecidableEq

/-- One element of the `files` array of an `init` body. -/
structure JsFile where
  content : JsVal
  encoding : JsVal
  deriving Repr, DecidableEq

/-- The `files` field as discriminated by the source
(`!files || !Array.isArray(files)`). -/
inductive FilesField : Type
  | missing
  | notArray
  | array (files : List JsFile)
  deriving Repr, DecidableEq

/-- The fields of an `init` message body that `get_job` destructures. -/
structure InitBody where
  language : JsVal := .undef
  version : JsVal := .undef
  args : JsVal := .undef
  stdin : JsVal := .undef
  files : FilesField := .missing
  compile_memory_limit : JsVal := .undef
  run_memory_limit : JsVal := .undef
  run_timeout : JsVal := .undef
  compile_timeout : JsVal := .undef
  run_cpu_time : JsVal := .undef
  compile_cpu_time : JsVal := .undef
  deriving Repr, DecidableEq

/-- Per-stage limit values stored on a constructed `Job`; they are the raw
request values with `??`-fallback to the runtime's configured values, so
they are JS values, not plain numbers. -/
structure JsStagePair where
  run : JsVal
  compile : JsVal
  deriving Repr, DecidableEq

/-- The `Job` constructor argument record built at the end of `get_job`. -/
structure Job where
  runtime : Runtime
  args : JsVal
  stdin : JsVal
  files : List JsFile
  timeouts : JsStagePair
  cpu_times : JsStagePair
  memory_limits : JsStagePair
  deriving Repr, DecidableEq

/-- Index of the first file whose `content` is not a string
(`typeof file.content !== 'string'`), if any. -/
def find_bad_content : List JsFile → Nat → Option Nat
  | [], _ => none
  | f :: fs, i =>
    match f.content with
    | .str _ => find_bad_content fs (i + 1)
    | _ => some i

/-- `!file.encoding || file.encoding === 'utf8'`. -/
def file_is_utf8 (f : JsFile) : Bool :=
  !truthy f.encoding || f.encoding == JsVal.str "utf8"

/-- One iteration of the constraint-validation loop of `get_job`
(source lines 70–97): skip falsy values; reject non-numbers; skip when the
configured limit is ≤ 0; reject values above the configured limit; reject
negative values. -/
def check_limit (name : String) (v : JsVal) (configured : Int) : Option String :=
  if !truthy v then none
  else
    match v with
    | .num n =>
      if configured ≤ 0 then none
      else if n > configured then
        some s!"{name} cannot exceed the configured limit of {configured}"
      else if n < 0 then some s!"{name} must be non-negative"
      else none
    | _ => some s!"If specified, {name} must be a number"

/-- The whole constraint loop, in source iteration order:
`['memory_limit','timeout','cpu_time'] × ['compile','run']`. -/
def validate_limits (body : InitBody) (rt : Runtime) : Option String :=
  check_limit "compile_memory_limit" body.compile_memory_limit rt.memory_limits.compile <|>
  check_limit "run_memory_limit" body.run_memory_limit rt.memory_limits.run <|>
  check_limit "compile_timeout" body.compile_timeout rt.timeouts.compile <|>
  check_limit "run_timeout" body.run_timeout rt.timeouts.run <|>
  check_limit "compile_cpu_time" body.compile_cpu_time rt.cpu_times.compile <|>
  check_limit "run_cpu_time" body.run_cpu_time rt.cpu_times.run

/-- `get_job` of `src/api/src/api/v2.js` (lines 12–120).  `resolve` stands
for `runtime.get_latest_runtime_matching_language_version`; a rejection of
the promise is an `Except.error` carrying the rejection's `message`. -/
def get_job (resolve : String → String → Option Runtime) (body : InitBody) :
    Except String Job :=
  match body.language with
  | .str lang =>
    if lang = "" then .error "language is required as a string"
    else
      match body.version with
      | .str ver =>
        if ver = "" then .error "version is required as a string"
        else
          match body.files with
          | .array files =>
            match find_bad_content files 0 with
            | some i => .error s!"files[{i}].content is required as a string"
            | none =>
              match resolve lang ver with
              | none => .error s!"{lang}-{ver} runtime is unknown"
              | some rt =>
                if rt.language != "file" && !files.any file_is_utf8 then
                  .error "files must include at least one utf8 encoded file"
                else
                  match validate_limits body rt with
                  | some msg => .error msg
                  | none =>
                    .ok
                      { runtime := rt
                        args := jsCoalesce body.args (.arr [])
                        stdin := jsCoalesce body.stdin (.str "")
                        files := files
                        timeouts :=
                          { run := jsCoalesce body.run_timeout (.num rt.timeouts.run)
                            compile := jsCoalesce body.compile_timeout (.num rt.timeouts.compile) }
                        cpu_times :=
                          { run := jsCoalesce body.run_cpu_time (.num rt.cpu_times.run)
                            compile := jsCoalesce body.compile_cpu_time (.num rt.cpu_times.compile) }
                        memory_limits :=
                          { run := jsCoalesce body.run_memory_limit (.num rt.memory_limits.run)
                            compile := jsCoalesce body.compile_memory_limit (.num rt.memory_limits.compile) } }
          | _ => .error "files is required as an array"
      | _ => .error "version is required as a string"
  | _ => .error "language is required as a string"

/-- The result record of one stage execution, as read by the session
handler from `Job.runTest` / `compileResult.compile`. -/
structure StageRes where
  stdout : String := ""
  stderr : String := ""
  code : JsVal := .null
  signal : JsVal := .null
  message : JsVal := .null
  status : JsVal := .null
  wall_time : Int := 0
  cpu_time : Int := 0
  memory : Int := 0
  deriving Repr, DecidableEq

/-- The result of `Job.compileOnly`: a `success` flag plus the optional
compile stage record (absent for uncompiled runtimes). -/
structure CompileResult where
  success : Bool
  compile : Option StageRes := none
  deriving Repr, DecidableEq

/-- The result of `Job.runBatched`, as read by the session handler. -/
structure BatchRes where
  results : List StageRes := []
  total_time : Int := 0
  total_cpu_time : Int := 0
  memory : Int := 0
  success : Bool := true
  stderr : String := ""
  deriving Repr, DecidableEq

/-- One element of a `run_batch` request's `test_cases` array (passed to
`Job.runBatched` untouched by the session layer). -/
structure TestCase where
  stdin : JsVal := .undef
  test_id : JsVal := .undef
  deriving Repr, DecidableEq

/-- The `test_cases` field as discriminated by the source
(`!msg.test_cases || !Array.isArray(msg.test_cases) || ... .length === 0`). -/
inductive CasesField : Type
  | missing
  | notArray
  | array (cases : List TestCase)
  deriving Repr, DecidableEq

/-- Inbound messages of the `/judge` endpoint; `malformed` stands for a
frame on which `JSON.parse` throws (with the given `error.message`). -/
inductive InMsg : Type
  | init (body : InitBody)
  | run_test (stdin test_id timeout cpu_time memory_limit : JsVal)
  | run_batch (test_cases : CasesField) (timeout cpu_time memory_limit : JsVal)
  | close
  | unknown (ty : String)
  | malformed (msg : String)
  deriving Repr, DecidableEq

/-- Outbound messages of the `/judge` endpoint (`sendMessage(type, data)`). -/
inductive OutMsg : Type
  | error (test_id : Option JsVal) (message : String)
  | ready (language : String) (version : String) (compiled : Bool)
  | compiledMsg (success : Bool) (time : Int) (stdout : String)
      (stderr : String) (err : JsVal)
  | result (test_id : JsVal) (stdout : String) (stderr : String)
      (code : JsVal) (signal : JsVal) (message : JsVal) (status : JsVal)
      (time : Int) (cpu_time : Int) (memory : Int)
  | batchResult (results : List StageRes) (total_tests : Int)
      (total_time : Int) (total_cpu_time : Int) (memory : Int)
      (success : Bool) (stderr : String)
  | done (total_tests : Int) (total_time : Int)
  deriving Repr, DecidableEq

/-- A recorded invocation of `Job.runTest` / `Job.runBatched`, with the
argument values the session layer actually passed. -/
inductive JobCall : Type
  | runTest (stdin timeout cpu_time memory_limit : JsVal)
  | runBatched (cases : List TestCase) (timeout cpu_time memory_limit : JsVal)
  deriving Repr, DecidableEq

instance exceptDecEq {ε α : Type} [DecidableEq ε] [DecidableEq α] :
    DecidableEq (Except ε α)
  | .error e, .error f =>
    if h : e = f then .isTrue (by rw [h])
    else .isFalse (by intro hh; cases hh; exact h rfl)
  | .error _, .ok _ => .isFalse (by intro hh; cases hh)
  | .ok _, .error _ => .isFalse (by intro hh; cases hh)
  | .ok a, .ok b =>
    if h : a = b then .isTrue (by rw [h])
    else .isFalse (by intro hh; cases hh; exact h rfl)

/-- Outcomes of the opaque `Job` calls of one session, in invocation
order.  `cleanups` gives the outcome of each successive `Job.cleanup`
call (`some e` = the call threw `e`); exhausted streams default to
success, which is irrelevant to every claim (hypotheses pin the heads
wherever an outcome matters). -/
structure Oracle where
  primeRes : Except String Unit := .ok ()
  compileRes : Except String CompileResult := .ok { success := true }
  runs : List (Except String StageRes) := []
  batches : List (Except String BatchRes) := []
  cleanups : List (Option String) := []
  deriving Repr, DecidableEq

/-- The state of one `/judge` session: the handler's mutable locals
(`job`, `testCount`, `totalTime`, `isCompiled`), the socket observables
(`out`, `closeCode`), instrumentation (`cleanupCalls`, `calls`) and the
remaining oracle streams. -/
structure St where
  job : Option Job := none
  testCount : Int := 0
  totalTime : Int := 0
  isCompiled : Bool := false
  out : List OutMsg := []
  closeCode : Option Nat := none
  cleanupCalls : Nat := 0
  calls : List JobCall := []
  primeRes : Except String Unit := .ok ()
  compileRes : Except String CompileResult := .ok { success := true }
  runs : List (Except String StageRes) := []
  batches : List (Except String BatchRes) := []
  cleanups : List (Option String) := []
  deriving Repr, DecidableEq

/-- The fresh session state for a given oracle. -/
def initSt (o : Oracle) : St :=
  { primeRes := o.primeRes, compileRes := o.compileRes, runs := o.runs,
    batches := o.batches, cleanups := o.cleanups }

/-- `ws.send` (via `sendMessage`): a no-op once the socket is closed. -/
def send (st : St) (m : OutMsg) : St :=
  if st.closeCode.isSome then st else { st with out := st.out ++ [m] }

/-- `ws.close(code, reason)`: only the first close takes effect. -/
def closeWs (st : St) (code : Nat) : St :=
  if st.closeCode.isSome then st else { st with closeCode := some code }

/-- One `await job.cleanup()`: consumes the next cleanup outcome and
counts the invocation; the returned `Option String` is the thrown error,
if any. -/
def doCleanup (st : St) : St × Option String :=
  match st.cleanups with
  | [] => ({ st with cleanupCalls := st.cleanupCalls + 1 }, none)
  | o :: rest =>
    ({ st with cleanupCalls := st.cleanupCalls + 1, cleanups := rest }, o)

/-- Next `Job.runTest` outcome. -/
def takeRun (st : St) : Except String StageRes × St :=
  match st.runs with
  | [] => (.ok {}, st)
  | r :: rest => (r, { st with runs := rest })

/-- Next `Job.runBatched` outcome. -/
def takeBatch (st : St) : Except String BatchRes × St :=
  match st.batches with
  | [] => (.ok {}, st)
  | b :: rest => (b, { st with batches := rest })

/-- `compileResult.compile?.wall_time || 0` (`|| 0` is the identity on an
integer already defaulting to `0`). -/
def compile_time (c : CompileResult) : Int :=
  match c.compile with
  | none => 0
  | some r => r.wall_time

/-- `compileResult.compile?.stdout || ''`. -/
def compile_stdout (c : CompileResult) : String :=
  match c.compile with
  | none => ""
  | some r => r.stdout

/-- `compileResult.compile?.stderr || ''`. -/
def compile_stderr (c : CompileResult) : String :=
  match c.compile with
  | none => ""
  | some r => r.stderr

/-- `compileResult.compile?.message || null`. -/
def compile_err (c : CompileResult) : JsVal :=
  match c.compile with
  | none => .null
  | some r => jsOr r.message .null

/-- The `catch` block of the `init` case (v2.js lines 299–304): send
`error{message}`, clean the job up if one exists, close 4002.  A throw
from this `cleanup` propagates to the outer catch, which sends another
`error{message}` and closes 4002. -/
def initCatch (st : St) (e : String) : St :=
  let st1 := send st (.error none e)
  match st1.job with
  | none => closeWs st1 4002
  | some _ =>
    let (st2, err) := doCleanup st1
    match err with
    | none => closeWs st2 4002
    | some e2 => closeWs (send st2 (.error none e2)) 4002

/-- The body of the `ws.on('message')` handler of `/judge`
(v2.js lines 252–408), for one inbound message on a live socket. -/
def handle (resolve : String → String → Option Runtime) (st : St) :
    InMsg → St
  | .init body =>
    if st.job.isSome then closeWs st 4000
    else
      match get_job resolve body with
      | .error e => closeWs (send st (.error none e)) 4002
      | .ok j =>
        let st1 := { st with job := some j }
        match st1.primeRes with
        | .error e => initCatch st1 e
        | .ok _ =>
          let st2 := send st1
            (.ready j.runtime.language j.runtime.version_raw j.runtime.compiled)
          match st2.compileRes with
          | .error e => initCatch st2 e
          | .ok cres =>
            let st3 := { st2 with isCompiled := cres.success }
            let st4 := send st3
              (.compiledMsg cres.success (compile_time cres)
                (compile_stdout cres) (compile_stderr cres) (compile_err cres))
            if cres.success then st4
            else
              let (st5, err) := doCleanup st4
              match err with
              | none => closeWs st5 4006
              | some e => initCatch st5 e
  | .run_test stdin test_id timeout cpu_time memory_limit =>
    match st.job with
    | none => closeWs st 4003
    | some _ =>
      if !st.isCompiled then
        send st (.error none "Code did not compile successfully")
      else
        let st1 := { st with
          calls := st.calls ++
            [.runTest (jsOr stdin (.str "")) (jsOr timeout .null)
              (jsOr cpu_time .null) (jsOr memory_limit .null)] }
        let (r, st2) := takeRun st1
        match r with
        | .error e =>
          send st2 (.error (some (jsOr test_id (.num (st2.testCount + 1)))) e)
        | .ok res =>
          let st3 := { st2 with
            testCount := st2.testCount + 1
            totalTime := st2.totalTime + res.wall_time }
          send st3
            (.result (jsOr test_id (.num st3.testCount)) res.stdout res.stderr
              res.code res.signal res.message res.status res.wall_time
              res.cpu_time res.memory)
  | .run_batch test_cases timeout cpu_time memory_limit =>
    match st.job with
    | none => closeWs st 4003
    | some _ =>
      if !st.isCompiled then
        send st (.error none "Code did not compile successfully")
      else
        match test_cases with
        | .array cases =>
          if cases.length = 0 then
            send st (.error none "test_cases array is required for run_batch")
          else
            let st1 := { st with
              calls := st.calls ++
                [.runBatched cases (jsOr timeout .null) (jsOr cpu_time .null)
                  (jsOr memory_limit .null)] }
            let (b, st2) := takeBatch st1
            match b with
            | .error e => send st2 (.error none e)
            | .ok bres =>
              let st3 := { st2 with
                testCount := (cases.length : Int)
                totalTime := bres.total_time }
              send st3
                (.batchResult bres.results st3.testCount bres.total_time
                  bres.total_cpu_time bres.memory bres.success bres.stderr)
        | _ =>
          send st (.error none "test_cases array is required for run_batch")
  | .close =>
    let st1 := send st (.done st.testCount st.totalTime)
    match st1.job with
    | none => closeWs st1 4999
    | some _ =>
      let (st2, err) := doCleanup st1
      match err with
      | none => closeWs st2 4999
      | some e => closeWs (send st2 (.error none e)) 4002
  | .unknown ty => send st (.error none s!"Unknown message type: {ty}")
  | .malformed e => closeWs (send st (.error none e)) 4002

/-- One inbound frame: once the socket is closed the transport delivers no
further frames, so closed states are fixed. -/
def step (resolve : String → String → Option Runtime) (st : St) (m : InMsg) :
    St :=
  if st.closeCode.isSome then st else handle resolve st m

/-- The whole inbound trace, in arrival order. -/
def runMsgs (resolve : String → String → Option Runtime) (st : St)
    (msgs : List InMsg) : St :=
  msgs.foldl (step resolve) st

/-- The `ws.on('close')` handler (v2.js lines 410–418): clean up the job if
one exists; a throw is logged only (swallowed). -/
def wsCloseHandler (st : St) : St :=
  match st.job with
  | none => st
  | some _ => (doCleanup st).1

/-- A full session: the inbound trace followed by the socket-close event
(which fires exactly once on every termination path). -/
def runSession (resolve : String → String → Option Runtime) (o : Oracle)
    (msgs : List InMsg) : St :=
  wsCloseHandler (runMsgs resolve (initSt o) msgs)

/-- Whether an outbound message is a `result` message. -/
def OutMsg.isResult : OutMsg → Bool
  | .result _ _ _ _ _ _ _ _ _ _ => true
  | _ => false

/-- Whether an outbound message is a `done` message. -/
def OutMsg.isDone : OutMsg → Bool
  | .done _ _ => true
  | _ => false

/-- The ordering invariant "if the session closed 4999 then the last
outbound message is `done`". -/
def doneLast (st : St) : Prop :=
  st.closeCode = some 4999 → ∃ c t, st.out.getLast? = some (.done c t)

/-!
### An interleaving semantics for the async message handler

`ws.on('message', async data => ...)` registers an `async` function that
the transport does not await: the handler for an inbound frame runs
synchronously up to its first `await` and then yields, so the handler of a
later frame can run while an earlier one is suspended.  For `run_test`
the suspension point is `await job.runTest(...)`: the guards and the start
of the call happen at delivery ("phase A"), while the counter updates and
the `result` send happen when the call's promise settles ("phase B"),
whose order across in-flight tests depends on child-process timing.  The
scheduler below makes that completion order explicit; messages other than
`run_test` are modelled as running atomically, which only restricts the
schedules considered.
-/

/-- A `run_test` handler suspended at `await job.runTest(...)`. -/
structure PendRun where
  test_id : JsVal
  outcome : Except String StageRes
  deriving Repr, DecidableEq

/-- Session state plus the suspended handlers. -/
structure CSt where
  base : St
  pend : List PendRun
  deriving Repr, DecidableEq

/-- Scheduler events: deliver the next inbound frame, or resume the
`i`-th suspended handler (its awaited call having settled). -/
inductive CEv : Type
  | deliver (m : InMsg)
  | resume (i : Nat)
  deriving Repr, DecidableEq

/-- Phase A of a delivered frame: for `run_test`, run the guards, start
`job.runTest` and suspend; every other frame runs its handler atomically. -/
def cDeliver (resolve : String → String → Option Runtime) (c : CSt) :
    InMsg → CSt
  | .run_test stdin test_id timeout cpu_time memory_limit =>
    if c.base.closeCode.isSome then c
    else
      match c.base.job with
      | none => { c with base := closeWs c.base 4003 }
      | some _ =>
        if !c.base.isCompiled then
          { c with
            base := send c.base
              (.error none "Code did not compile successfully") }
        else
          let st1 := { c.base with
            calls := c.base.calls ++
              [.runTest (jsOr stdin (.str "")) (jsOr timeout .null)
                (jsOr cpu_time .null) (jsOr memory_limit .null)] }
          let (r, st2) := takeRun st1
          { base := st2, pend := c.pend ++ [⟨test_id, r⟩] }
  | m => { c with base := step resolve c.base m }

/-- Phase B of a suspended `run_test` handler (v2.js lines 326–347), run
when its awaited call settles: counters are read and written at resume
time, exactly as in the source. -/
def cResume (c : CSt) (i : Nat) : CSt :=
  match c.pend.get? i with
  | none => c
  | some p =>
    let pend' := c.pend.eraseIdx i
    match p.outcome with
    | .error e =>
      { base :=
          send c.base
            (.error (some (jsOr p.test_id (.num (c.base.testCount + 1)))) e)
        pend := pend' }
    | .ok res =>
      let st1 := { c.base with
        testCount := c.base.testCount + 1
        totalTime := c.base.totalTime + res.wall_time }
      { base :=
          send st1
            (.result (jsOr p.test_id (.num st1.testCount)) res.stdout
              res.stderr res.code res.signal res.message res.status
              res.wall_time res.cpu_time res.memory)
        pend := pend' }

/-- Run a schedule. -/
def cExec (resolve : String → String → Option Runtime) (c : CSt) :
    List CEv → CSt
  | [] => c
  | .deliver m :: rest => cExec resolve (cDeliver resolve c m) rest
  | .resume i :: rest => cExec resolve (cResume c i) rest

/-- Fresh concurrent session state. -/
def cInit (o : Oracle) : CSt := ⟨initSt o, []⟩

/-!
### Concrete fixtures used by counterexamples and witnesses
-/

/-- An uncompiled runtime in the registry (python-like). -/
def pyRt : Runtime :=
  { language := "python", version_raw := "3.10.0", compiled := false,
    timeouts := ⟨10000, 3000⟩, cpu_times := ⟨10000, 3000⟩,
    memory_limits := ⟨-1, -1⟩ }

/-- A registry resolving only `("python", "*")`. -/
def res0 : String → String → Option Runtime := fun l v =>
  if l = "python" && v = "*" then some pyRt else none

/-- A valid `init` body for `res0`. -/
def okBody : InitBody :=
  { language := .str "python", version := .str "*",
    files := .array
      [{ content := .str "print(int(input())*2)", encoding := .undef }] }

/-- Job-call outcomes: one successful test taking 5 ms, one successful
batch taking 7 ms in total, all cleanups succeeding. -/
def orc1 : Oracle :=
  { compileRes := .ok { success := true },
    runs := [.ok { stdout := "10\n", code := .num 0, wall_time := 5 }],
    batches := [.ok { total_time := 7, results := [{}, {}] }] }

/-- A session: init, one test (5 ms), one 2-case batch (7 ms), close. -/
def trace1 : List InMsg :=
  [.init okBody,
   .run_test (.str "5\n") .undef .undef .undef .undef,
   .run_batch (.array [{}, {}]) .undef .undef .undef,
   .close]

/-- A runtime whose configured run timeout is `0`, i.e. unbounded at the
configured layer (the spec: "A default limit ≤ 0 means unbounded"). -/
def rtUnbounded : Runtime :=
  { pyRt with timeouts := ⟨10000, 0⟩ }

/-- Registry resolving `("python", "*")` to `rtUnbounded`. -/
def resU : String → String → Option Runtime := fun l v =>
  if l = "python" && v = "*" then some rtUnbounded else none

/-- A body supplying a negative `run_timeout`. -/
def body3 : InitBody :=
  { okBody with run_timeout := .num (-5) }

/-- A runtime whose language is the `file` sentinel. -/
def rtFile : Runtime :=
  { pyRt with language := "file", version_raw := "1.0.0" }

/-- Registry resolving `("file", "*")`. -/
def resFile : String → String → Option Runtime := fun l v =>
  if l = "file" && v = "*" then some rtFile else none

/-- An `init` body with an empty `files` array for the `file` runtime. -/
def body5 : InitBody :=
  { language := .str "file", version := .str "*", files := .array [] }

/-- A body whose `files` field is absent. -/
def bodyMissing : InitBody :=
  { language := .str "python", version := .str "*", files := .missing }

/-- A body whose `files` field is truthy but not an array. -/
def bodyNotArray : InitBody :=
  { language := .str "python", version := .str "*", files := .notArray }

/-- A body with an empty `files` array for a non-`file` runtime. -/
def bodyEmptyFiles : InitBody :=
  { language := .str "python", version := .str "*", files := .array [] }

/-- A compiled runtime (for the compile-failure scenario). -/
def rtC : Runtime :=
  { pyRt with language := "c++", version_raw := "10.2.0", compiled := true }

/-- Registry resolving `("c++", "*")`. -/
def resC : String → String → Option Runtime := fun l v =>
  if l = "c++" && v = "*" then some rtC else none

/-- A valid `init` body for `resC`. -/
def bodyC : InitBody :=
  { language := .str "c++", version := .str "*",
    files := .array [{ content := .str "int main((", encoding := .undef }] }

/-- Outcomes for the compile-failure scenario: the compile stage record
reports failure, cleanup succeeds. -/
def orcC : Oracle :=
  { compileRes := .ok
      { success := false,
        compile := some { stderr := "syntax error", wall_time := 12 } },
    cleanups := [none] }

/-- An oracle for a session whose compile stage reports failure (compile
record `c`), with `prime` succeeding and the first cleanup succeeding. -/
def failOracle (c : Option StageRes) (runs : List (Except String StageRes))
    (batches : List (Except String BatchRes))
    (cls : List (Option String)) : Oracle :=
  { primeRes := .ok (), compileRes := .ok { success := false, compile := c },
    runs := runs, batches := batches, cleanups := none :: cls }

/-- Outcomes for the interleaving scenario: the first test's process runs
for 100 ms, the second settles first after 5 ms. -/
def orc8 : Oracle :=
  { compileRes := .ok { success := true },
    runs := [.ok { stdout := "a", wall_time := 100 },
             .ok { stdout := "b", wall_time := 5 }] }

/-- A schedule in which both `run_test` frames are delivered while the
first test is still running, and the second test's call settles first. -/
def ev8 : List CEv :=
  [.deliver (.init okBody),
   .deliver (.run_test (.str "1") (.num 10) .undef .undef .undef),
   .deliver (.run_test (.str "2") (.num 20) .undef .undef .undef),
   .resume 1, .resume 0]

/-- The job `get_job res0 okBody` constructs. -/
def job1 : Job :=
  { runtime := pyRt, args := .arr [], stdin := .str "",
    files := [{ content := .str "print(int(input())*2)", encoding := .undef }],
    timeouts := { run := .num 3000, compile := .num 10000 },
    cpu_times := { run := .num 3000, compile := .num 10000 },
    memory_limits := { run := .num (-1), compile := .num (-1) } }

/-- The job `get_job resC bodyC` constructs. -/
def jobC : Job :=
  { runtime := rtC, args := .arr [], stdin := .str "",
    files := [{ content := .str "int main((", encoding := .undef }],
    timeouts := { run := .num 3000, compile := .num 10000 },
    cpu_times := { run := .num 3000, compile := .num 10000 },
    memory_limits := { run := .num (-1), compile := .num (-1) } }

/-- A live (socket open), initialized, successfully-compiled session
state with every field explicit: `job = some j`, `isCompiled = true`,
`closeCode = none`, all other components arbitrary.  Quantifying over the
arguments of `liveSt` expresses "any mid-session state that may accept
tests" without propositional side conditions. -/
def liveSt (j : Job) (tc tt : Int) (out0 : List OutMsg) (cc : Nat)
    (calls0 : List JobCall) (pr : Except String Unit)
    (cr : Except String CompileResult) (runs : List (Except String StageRes))
    (batches : List (Except String BatchRes))
    (cleanups : List (Option String)) : St :=
  { job := some j, testCount := tc, totalTime := tt, isCompiled := true,
    out := out0, closeCode := none, cleanupCalls := cc, calls := calls0,
    primeRes := pr, compileRes := cr, runs := runs, batches := batches,
    cleanups := cleanups }

/-- A live session state in which no `init` has been accepted yet
(`job = none`, `closeCode = none`), all other components arbitrary. -/
def openSt (tc tt : Int) (ic : Bool) (out0 : List OutMsg) (cc : Nat)
    (calls0 : List JobCall) (pr : Except String Unit)
    (cr : Except String CompileResult) (runs : List (Except String StageRes))
    (batches : List (Except String BatchRes))
    (cleanups : List (Option String)) : St :=
  { job := none, testCount := tc, totalTime := tt, isCompiled := ic,
    out := out0, closeCode := none, cleanupCalls := cc, calls := calls0,
    primeRes := pr, compileRes := cr, runs := runs, batches := batches,
    cleanups := cleanups }

/-!
### Helper lemmas
-/

theorem step_of_closed {resolve : String → String → Option Runtime}
    {st : St} {c : Nat} (h : st.closeCode = some c) (m : InMsg) :
    step resolve st m = st := by
  simp [step, h]

theorem runMsgs_of_closed {resolve : String → String → Option Runtime}
    {st : St} {c : Nat} (h : st.closeCode = some c) (msgs : List InMsg) :
    runMsgs resolve st msgs = st := by
  induction msgs with
  | nil => rfl
  | cons m rest ih =>
    show runMsgs resolve (step resolve st m) rest = st
    rw [step_of_closed h, ih]

theorem send_of_live {st : St} (h : st.closeCode = none) (m : OutMsg) :
    send st m = { st with out := st.out ++ [m] } := by
  simp [send, h]

theorem closeWs_of_live {st : St} (h : st.closeCode = none) (c : Nat) :
    closeWs st c = { st with closeCode := some c } := by
  simp [closeWs, h]

/-!
### Claim C1 — `done` totals
-/

/-- C1 counterexample.  In the session `init`, one `run_test` taking 5 ms,
one 2-case `run_batch` with `total_time` 7 ms, `close`, the claim's
running-total reading predicts `done{total_tests: 3, total_time: 12}`, but
the session reports `done{total_tests: 2, total_time: 7}`: `run_batch`
overwrote the totals instead of adding to them. -/
theorem C1_counterexample :
    (runSession res0 orc1 trace1).out.getLast? = some (.done 2 7) ∧
      ¬ (runSession res0 orc1 trace1).out.getLast? = some (.done 3 12) :=
  ⟨rfl, by decide⟩

/-- C1 amended.  Each accepted `run_test` adds 1 to `testCount` and its
wall time to `totalTime`, but each accepted `run_batch` overwrites
(assigns, not adds) those counters with its own case count and
`total_time`; `close` reports the current counter values verbatim in
`done`. -/
theorem C1_running_totals (resolve : String → String → Option Runtime)
    (j : Job) (tc tt : Int) (out0 : List OutMsg) (cc : Nat)
    (calls0 : List JobCall) (pr : Except String Unit)
    (cr : Except String CompileResult) (r : StageRes)
    (rs : List (Except String StageRes)) (b : BatchRes)
    (bs : List (Except String BatchRes)) (cls : List (Option String))
    (s i t1 c1 m1 t2 c2 m2 : JsVal) (k0 : TestCase) (ks : List TestCase) :
    ((step resolve (liveSt j tc tt out0 cc calls0 pr cr (.ok r :: rs) bs cls)
        (.run_test s i t1 c1 m1)).testCount = tc + 1 ∧
      (step resolve (liveSt j tc tt out0 cc calls0 pr cr (.ok r :: rs) bs cls)
        (.run_test s i t1 c1 m1)).totalTime = tt + r.wall_time) ∧
    ((step resolve (liveSt j tc tt out0 cc calls0 pr cr rs (.ok b :: bs) cls)
        (.run_batch (.array (k0 :: ks)) t2 c2 m2)).testCount
        = ((k0 :: ks).length : Int) ∧
      (step resolve (liveSt j tc tt out0 cc calls0 pr cr rs (.ok b :: bs) cls)
        (.run_batch (.array (k0 :: ks)) t2 c2 m2)).totalTime
        = b.total_time) ∧
    (step resolve (liveSt j tc tt out0 cc calls0 pr cr rs bs (none :: cls))
        .close).out = out0 ++ [.done tc tt] :=
  ⟨⟨rfl, rfl⟩, ⟨rfl, rfl⟩, rfl⟩

/-!
### Claim C2 — cleanup exactly once
-/

/-- C2 counterexample.  On the explicit-`close` path `Job.cleanup` is
invoked twice for the session's job: once by the `close` handler and once
more by the `ws.on('close')` handler that fires when the socket closes —
not exactly once. -/
theorem C2_counterexample :
    (runSession res0 orc1 [.init okBody, .close]).cleanupCalls = 2 ∧
      (2 : Nat) ≠ 1 :=
  ⟨rfl, by decide⟩

/-- C2 amended.  For every session in which a job was created, cleanup is
invoked at least once by session end regardless of termination path (the
socket-close handler guarantees this); on paths that already clean up in
the message handler — explicit `close`, compile failure, init fault — it
is invoked a second time, relying on `cleanup`'s idempotence. -/
theorem C2_cleanup_at_least_once (resolve : String → String → Option Runtime)
    (o : Oracle) (msgs : List InMsg)
    (h : (runSession resolve o msgs).job.isSome = true) :
    1 ≤ (runSession resolve o msgs).cleanupCalls := by
  unfold runSession wsCloseHandler at h ⊢
  cases hj : (runMsgs resolve (initSt o) msgs).job with
  | none =>
    exfalso
    simp only [hj, Option.isSome_none] at h
    exact Bool.false_ne_true h
  | some j =>
    show 1 ≤ ((doCleanup (runMsgs resolve (initSt o) msgs)).1).cleanupCalls
    unfold doCleanup
    cases (runMsgs resolve (initSt o) msgs).cleanups <;>
      exact Nat.succ_le_succ (Nat.zero_le _)

/-- Witness for C2's amended theorem at a concrete session. -/
theorem C2_cleanup_at_least_once_witness :
    (runSession res0 orc1 [.init okBody, .close]).job.isSome = true ∧
      1 ≤ (runSession res0 orc1 [.init okBody, .close]).cleanupCalls :=
  ⟨rfl, C2_cleanup_at_least_once res0 orc1 [.init okBody, .close] rfl⟩

/-!
### Claim C4 — pre-init commands
-/

/-- C4 counterexample.  A `close` command on a session still in the
Opening state (no `init` received) does not close 4003: it first emits
`done{total_tests: 0, total_time: 0}` and then closes 4999. -/
theorem C4_counterexample :
    (step res0 (initSt {}) .close).out = [.done 0 0] ∧
    (step res0 (initSt {}) .close).closeCode = some 4999 ∧
    (some 4999 : Option Nat) ≠ some 4003 :=
  ⟨rfl, rfl, by decide⟩

/-- C4 amended.  Before `init`, only `run_test` and `run_batch` close the
socket with 4003 (with no prior outbound for that command); `close` emits
`done{0-totals}` and closes 4999; an unknown message type emits an
`error` without closing; `init` itself is processed normally. -/
theorem C4_preinit_behavior (resolve : String → String → Option Runtime)
    (tc tt : Int) (ic : Bool) (out0 : List OutMsg) (cc : Nat)
    (calls0 : List JobCall) (pr : Except String Unit)
    (cr : Except String CompileResult) (runs : List (Except String StageRes))
    (batches : List (Except String BatchRes)) (cls : List (Option String))
    (s i t1 c1 m1 : JsVal) (tcs : CasesField) (t2 c2 m2 : JsVal)
    (ty : String) :
    ((step resolve (openSt tc tt ic out0 cc calls0 pr cr runs batches cls)
        (.run_test s i t1 c1 m1)).closeCode = some 4003 ∧
      (step resolve (openSt tc tt ic out0 cc calls0 pr cr runs batches cls)
        (.run_test s i t1 c1 m1)).out = out0) ∧
    ((step resolve (openSt tc tt ic out0 cc calls0 pr cr runs batches cls)
        (.run_batch tcs t2 c2 m2)).closeCode = some 4003 ∧
      (step resolve (openSt tc tt ic out0 cc calls0 pr cr runs batches cls)
        (.run_batch tcs t2 c2 m2)).out = out0) ∧
    ((step resolve (openSt tc tt ic out0 cc calls0 pr cr runs batches cls)
        .close).out = out0 ++ [.done tc tt] ∧
      (step resolve (openSt tc tt ic out0 cc calls0 pr cr runs batches cls)
        .close).closeCode = some 4999) ∧
    ((step resolve (openSt tc tt ic out0 cc calls0 pr cr runs batches cls)
        (.unknown ty)).out
        = out0 ++ [.error none s!"Unknown message type: {ty}"] ∧
      (step resolve (openSt tc tt ic out0 cc calls0 pr cr runs batches cls)
        (.unknown ty)).closeCode = none) :=
  ⟨⟨rfl, rfl⟩, ⟨rfl, rfl⟩, ⟨rfl, rfl⟩, ⟨rfl, rfl⟩⟩

/-!
### Claim C6 — `test_id` assignment
-/

/-- C6 counterexample.  A client-supplied `test_id` of `0` is provided in
the request but is not echoed: `0` is falsy, so `msg.test_id || testCount`
falls back to the server counter and the emitted `result` carries
`test_id: 1`. -/
theorem C6_counterexample :
    (runMsgs res0 (initSt orc1)
        [.init okBody,
         .run_test (.str "5\n") (.num 0) .undef .undef .undef]).out.getLast?
      = some (.result (.num 1) "10\n" "" (.num 0) .null .null .null 5 0 0) ∧
    JsVal.num 1 ≠ JsVal.num 0 :=
  ⟨rfl, by decide⟩

/-- C6 amended.  An accepted `run_test` echoes the client's `test_id`
only when it is truthy (`0`, `""`, `null`, `false` fall back), otherwise
it carries the incremented server counter `testCount + 1`; the counter
starts at 0 at session start and each accepted `run_test` increments it
by 1 (`run_batch` overwrites it, so monotonicity holds only batch-free). -/
theorem C6_test_id_assignment (resolve : String → String → Option Runtime)
    (j : Job) (tc tt : Int) (out0 : List OutMsg) (cc : Nat)
    (calls0 : List JobCall) (pr : Except String Unit)
    (cr : Except String CompileResult) (r : StageRes)
    (rs : List (Except String StageRes))
    (bs : List (Except String BatchRes)) (cls : List (Option String))
    (s i t1 c1 m1 : JsVal) (o : Oracle) :
    ((step resolve (liveSt j tc tt out0 cc calls0 pr cr (.ok r :: rs) bs cls)
        (.run_test s i t1 c1 m1)).out
      = out0 ++ [.result (jsOr i (.num (tc + 1))) r.stdout r.stderr r.code
          r.signal r.message r.status r.wall_time r.cpu_time r.memory] ∧
      (step resolve (liveSt j tc tt out0 cc calls0 pr cr (.ok r :: rs) bs cls)
        (.run_test s i t1 c1 m1)).testCount = tc + 1) ∧
    (initSt o).testCount = 0 ∧
    (∀ v d : JsVal, jsOr v d = if truthy v then v else d) :=
  ⟨⟨rfl, rfl⟩, rfl, fun _ _ => rfl⟩

/-!
### Claim C9 — cleanup errors
-/

/-- C9 counterexample.  When `Job.cleanup` throws during the explicit
`close` command, the error is not only logged: the session sends
`error{message}` to the client and the socket closes 4002 instead of
4999. -/
theorem C9_counterexample :
    (runSession res0 { orc1 with cleanups := [some "boom"] }
        [.init okBody, .close]).out
      = [.ready "python" "3.10.0" false, .compiledMsg true 0 "" "" .null,
         .done 0 0, .error none "boom"] ∧
    (runSession res0 { orc1 with cleanups := [some "boom"] }
        [.init okBody, .close]).closeCode = some 4002 ∧
    (some 4002 : Option Nat) ≠ some 4999 :=
  ⟨rfl, rfl, by decide⟩

/-- C9 amended.  Cleanup errors are swallowed (logged only) in the
socket-close handler, which never sends a message nor changes the close
code; but a cleanup error during the explicit `close` command propagates
to the outer catch, which sends `error{message}` and closes 4002 instead
of 4999 (after `done` was already sent). -/
theorem C9_cleanup_error_paths :
    (∀ st : St, (wsCloseHandler st).out = st.out ∧
      (wsCloseHandler st).closeCode = st.closeCode) ∧
    (∀ (resolve : String → String → Option Runtime) (j : Job) (tc tt : Int)
        (out0 : List OutMsg) (cc : Nat) (calls0 : List JobCall)
        (pr : Except String Unit) (cr : Except String CompileResult)
        (runs : List (Except String StageRes))
        (batches : List (Except String BatchRes)) (e : String)
        (cls : List (Option String)),
      (step resolve (liveSt j tc tt out0 cc calls0 pr cr runs batches
          (some e :: cls)) .close).out
        = out0 ++ [.done tc tt, .error none e] ∧
      (step resolve (liveSt j tc tt out0 cc calls0 pr cr runs batches
          (some e :: cls)) .close).closeCode = some 4002) := by
  constructor
  · intro st
    unfold wsCloseHandler
    cases hj : st.job with
    | none => exact ⟨rfl, rfl⟩
    | some j =>
      unfold doCleanup
      cases st.cleanups <;> exact ⟨rfl, rfl⟩
  · intro resolve j tc tt out0 cc calls0 pr cr runs batches e cls
    constructor
    · show (out0 ++ [OutMsg.done tc tt]) ++ [OutMsg.error none e]
        = out0 ++ [.done tc tt, .error none e]
      simp
    · rfl

/-!
### Claim C10 — request-field normalization
-/

/-- C10.  For every accepted `run_test` and `run_batch`, the session
layer passes the job exactly the `||`-normalized request fields: a falsy
`stdin` (missing or empty) becomes `""`, falsy limit overrides (absent or
`0`) become `null`, and a truthy override is passed through verbatim,
with no clamping (`jsOr v d` is exactly `if truthy v then v else d`). -/
theorem C10_argument_normalization :
    (∀ (resolve : String → String → Option Runtime) (j : Job) (tc tt : Int)
        (out0 : List OutMsg) (cc : Nat) (calls0 : List JobCall)
        (pr : Except String Unit) (cr : Except String CompileResult)
        (r : Except String StageRes) (rs : List (Except String StageRes))
        (bs : List (Except String BatchRes)) (cls : List (Option String))
        (s i t1 c1 m1 : JsVal),
      (step resolve (liveSt j tc tt out0 cc calls0 pr cr (r :: rs) bs cls)
          (.run_test s i t1 c1 m1)).calls
        = calls0 ++ [.runTest (jsOr s (.str "")) (jsOr t1 .null)
            (jsOr c1 .null) (jsOr m1 .null)]) ∧
    (∀ (resolve : String → String → Option Runtime) (j : Job) (tc tt : Int)
        (out0 : List OutMsg) (cc : Nat) (calls0 : List JobCall)
        (pr : Except String Unit) (cr : Except String CompileResult)
        (rs : List (Except String StageRes)) (b : Except String BatchRes)
        (bs : List (Except String BatchRes)) (cls : List (Option String))
        (k0 : TestCase) (ks : List TestCase) (t2 c2 m2 : JsVal),
      (step resolve (liveSt j tc tt out0 cc calls0 pr cr rs (b :: bs) cls)
          (.run_batch (.array (k0 :: ks)) t2 c2 m2)).calls
        = calls0 ++ [.runBatched (k0 :: ks) (jsOr t2 .null) (jsOr c2 .null)
            (jsOr m2 .null)]) ∧
    (∀ v d : JsVal, jsOr v d = if truthy v then v else d) ∧
    (jsOr (.num 0) .null = .null ∧ jsOr .undef .null = .null ∧
      jsOr .null .null = .null ∧ jsOr .undef (.str "") = .str "" ∧
      jsOr (.str "") (.str "") = .str "" ∧
      jsOr (.num 250) .null = .num 250) := by
  refine ⟨?_, ?_, fun _ _ => rfl, rfl, rfl, rfl, rfl, rfl, rfl⟩
  · intro resolve j tc tt out0 cc calls0 pr cr r rs bs cls s i t1 c1 m1
    cases r <;> rfl
  · intro resolve j tc tt out0 cc calls0 pr cr rs b bs cls k0 ks t2 c2 m2
    cases b <;> rfl

/-!
### Claim C3 — per-stage limit validation at `init`
-/

/-- C3 counterexample.  A supplied `run_timeout` of `-5` against a
runtime whose configured run timeout is `0` (unbounded) is NOT rejected:
the negativity check sits behind the `configured_limit <= 0` short
circuit, so `get_job` resolves, a Job is created, and the session neither
errors nor closes 4002. -/
theorem C3_counterexample :
    body3.run_timeout = .num (-5) ∧
    rtUnbounded.timeouts.run = 0 ∧
    (get_job resU body3).isOk = true ∧
    (step resU (initSt {}) (.init body3)).job.isSome = true ∧
    (step resU (initSt {}) (.init body3)).closeCode = none :=
  ⟨rfl, rfl, rfl, rfl, rfl⟩

/-- C3 amended.  A supplied per-stage limit is rejected at `init` iff it
is truthy and either non-numeric, or numeric with the configured maximum
positive and the value above that maximum or negative; falsy values
(including `0`) are skipped, and a negative value is accepted whenever the
configured maximum is ≤ 0.  On any rejection the session emits a single
`error{message}`, closes 4002, and creates no Job. -/
theorem C3_limit_validation :
    (∀ (name : String) (lim n : Int), 0 < lim → lim < n →
      check_limit name (.num n) lim =
        some s!"{name} cannot exceed the configured limit of {lim}") ∧
    (∀ (name : String) (lim n : Int), 0 < lim → n < 0 →
      check_limit name (.num n) lim = some s!"{name} must be non-negative") ∧
    (∀ (name : String) (lim n : Int), lim ≤ 0 →
      check_limit name (.num n) lim = none) ∧
    (∀ (name : String) (lim : Int) (s : String), s ≠ "" →
      check_limit name (.str s) lim =
        some s!"If specified, {name} must be a number") ∧
    (∀ (name : String) (lim : Int),
      check_limit name (.num 0) lim = none ∧
      check_limit name .undef lim = none) ∧
    (∀ (resolve : String → String → Option Runtime) (tc tt : Int)
        (ic : Bool) (out0 : List OutMsg) (cc : Nat) (calls0 : List JobCall)
        (pr : Except String Unit) (cr : Except String CompileResult)
        (runs : List (Except String StageRes))
        (batches : List (Except String BatchRes))
        (cls : List (Option String)) (body : InitBody) (e : String),
      get_job resolve body = .error e →
      (step resolve (openSt tc tt ic out0 cc calls0 pr cr runs batches cls)
          (.init body)).out = out0 ++ [.error none e] ∧
      (step resolve (openSt tc tt ic out0 cc calls0 pr cr runs batches cls)
          (.init body)).closeCode = some 4002 ∧
      (step resolve (openSt tc tt ic out0 cc calls0 pr cr runs batches cls)
          (.init body)).job = none) := by
  refine ⟨?_, ?_, ?_, ?_, ?_, ?_⟩
  · intro name lim n h1 h2
    have hne : (n != 0) = true := by simp; omega
    simp only [check_limit, truthy, hne, Bool.not_true, Bool.false_eq_true,
      if_false]
    rw [if_neg (by omega : ¬ lim ≤ 0), if_pos h2]
  · intro name lim n h1 h2
    have hne : (n != 0) = true := by simp; omega
    simp only [check_limit, truthy, hne, Bool.not_true, Bool.false_eq_true,
      if_false]
    rw [if_neg (by omega : ¬ lim ≤ 0), if_neg (by omega : ¬ n > lim),
      if_pos h2]
  · intro name lim n h
    by_cases h0 : n = 0
    · subst h0; rfl
    · have hne : (n != 0) = true := by simp [h0]
      simp only [check_limit, truthy, hne, Bool.not_true, Bool.false_eq_true,
        if_false]
      rw [if_pos h]
  · intro name lim s hs
    have hne : (s != "") = true := by simp [hs]
    simp only [check_limit, truthy, hne, Bool.not_true, Bool.false_eq_true,
      if_false]
  · intro name lim
    exact ⟨rfl, rfl⟩
  · intro resolve tc tt ic out0 cc calls0 pr cr runs batches cls body e hget
    have hstep :
        step resolve (openSt tc tt ic out0 cc calls0 pr cr runs batches cls)
          (.init body)
        = closeWs (send (openSt tc tt ic out0 cc calls0 pr cr runs batches
            cls) (.error none e)) 4002 := by
      simp [step, handle, openSt, hget]
    rw [hstep]
    exact ⟨rfl, rfl, rfl⟩

/-- Witness for C3's amended theorem: every hypothesised clause
instantiated at concrete limits and at a concrete rejected `init`. -/
theorem C3_limit_validation_witness :
    check_limit "run_timeout" (.num 5000) 3000 =
      some "run_timeout cannot exceed the configured limit of 3000" ∧
    check_limit "run_timeout" (.num (-5)) 3000 =
      some "run_timeout must be non-negative" ∧
    check_limit "run_timeout" (.num (-5)) 0 = none ∧
    check_limit "run_timeout" (.str "abc") 3000 =
      some "If specified, run_timeout must be a number" ∧
    (step res0 (openSt 0 0 false [] 0 [] (.ok ()) (.ok { success := true })
        [] [] []) (.init { okBody with run_timeout := .num 5000 })).closeCode
      = some 4002 :=
  ⟨C3_limit_validation.1 "run_timeout" 3000 5000 (by decide) (by decide),
   C3_limit_validation.2.1 "run_timeout" 3000 (-5) (by decide) (by decide),
   C3_limit_validation.2.2.1 "run_timeout" 0 (-5) (by decide),
   C3_limit_validation.2.2.2.1 "run_timeout" 3000 "abc" (by decide),
   (C3_limit_validation.2.2.2.2.2 res0 0 0 false [] 0 [] (.ok ())
     (.ok { success := true }) [] [] []
     { okBody with run_timeout := .num 5000 }
     "run_timeout cannot exceed the configured limit of 3000" rfl).2.1⟩

/-!
### Claim C5 — `files` validation at `init`
-/

/-- C5 counterexample.  An `init` with an empty `files` list is NOT
rejected for the `file` runtime language: the empty list passes the
`Array.isArray` check, and the only check that would catch it (the utf8
requirement) is skipped when `rt.language === 'file'`, so a Job is
created. -/
theorem C5_counterexample :
    body5.files = .array [] ∧
    rtFile.language = "file" ∧
    (get_job resFile body5).isOk = true ∧
    (step resFile (initSt {}) (.init body5)).job.isSome = true :=
  ⟨rfl, rfl, rfl, rfl⟩

/-- C5 amended.  A missing or non-array `files` field is rejected for
every runtime ("files is required as an array"); an empty list however is
only rejected through the utf8-file requirement, hence only when the
resolved runtime's language is not the `file` sentinel.  On rejection the
session emits one `error{message}`, closes 4002, and creates no Job. -/
theorem C5_files_validation :
    (∀ (resolve : String → String → Option Runtime) (lang ver : String)
        (rest : InitBody), lang ≠ "" → ver ≠ "" →
      get_job resolve
          { rest with
            language := .str lang
            version := .str ver
            files := .missing } = .error "files is required as an array") ∧
    (∀ (resolve : String → String → Option Runtime) (lang ver : String)
        (rest : InitBody), lang ≠ "" → ver ≠ "" →
      get_job resolve
          { rest with
            language := .str lang
            version := .str ver
            files := .notArray } = .error "files is required as an array") ∧
    (∀ (resolve : String → String → Option Runtime) (lang ver : String)
        (rest : InitBody) (rt : Runtime), lang ≠ "" → ver ≠ "" →
      resolve lang ver = some rt → rt.language ≠ "file" →
      get_job resolve
          { rest with
            language := .str lang
            version := .str ver
            files := .array [] }
        = .error "files must include at least one utf8 encoded file") ∧
    (∀ (resolve : String → String → Option Runtime) (tc tt : Int)
        (ic : Bool) (out0 : List OutMsg) (cc : Nat) (calls0 : List JobCall)
        (pr : Except String Unit) (cr : Except String CompileResult)
        (runs : List (Except String StageRes))
        (batches : List (Except String BatchRes))
        (cls : List (Option String)) (body : InitBody) (e : String),
      get_job resolve body = .error e →
      (step resolve (openSt tc tt ic out0 cc calls0 pr cr runs batches cls)
          (.init body)).out = out0 ++ [.error none e] ∧
      (step resolve (openSt tc tt ic out0 cc calls0 pr cr runs batches cls)
          (.init body)).closeCode = some 4002 ∧
      (step resolve (openSt tc tt ic out0 cc calls0 pr cr runs batches cls)
          (.init body)).job = none) := by
  refine ⟨?_, ?_, ?_, ?_⟩
  · intro resolve lang ver rest h1 h2
    simp [get_job, h1, h2]
  · intro resolve lang ver rest h1 h2
    simp [get_job, h1, h2]
  · intro resolve lang ver rest rt h1 h2 h3 h4
    have hb : (rt.language != "file") = true := by
      simp only [bne_iff_ne, ne_eq]
      exact h4
    simp [get_job, h1, h2, h3, hb, find_bad_content]
  · intro resolve tc tt ic out0 cc calls0 pr cr runs batches cls body e hget
    have hstep :
        step resolve (openSt tc tt ic out0 cc calls0 pr cr runs batches cls)
          (.init body)
        = closeWs (send (openSt tc tt ic out0 cc calls0 pr cr runs batches
            cls) (.error none e)) 4002 := by
      simp [step, handle, openSt, hget]
    rw [hstep]
    exact ⟨rfl, rfl, rfl⟩

/-- Witness for C5's amended theorem: every hypothesised clause
instantiated at a concrete registry, body and runtime. -/
theorem C5_files_validation_witness :
    get_job res0 bodyMissing = .error "files is required as an array" ∧
    get_job res0 bodyNotArray = .error "files is required as an array" ∧
    get_job res0 bodyEmptyFiles
      = .error "files must include at least one utf8 encoded file" ∧
    (step res0 (openSt 0 0 false [] 0 [] (.ok ()) (.ok { success := true })
        [] [] []) (.init bodyEmptyFiles)).closeCode = some 4002 :=
  ⟨C5_files_validation.1 res0 "python" "*" {} (by decide) (by decide),
   C5_files_validation.2.1 res0 "python" "*" {} (by decide) (by decide),
   C5_files_validation.2.2.1 res0 "python" "*" {} pyRt (by decide)
     (by decide) rfl (by decide),
   (C5_files_validation.2.2.2 res0 0 0 false [] 0 [] (.ok ())
     (.ok { success := true }) [] [] [] bodyEmptyFiles
     "files must include at least one utf8 encoded file" rfl).2.1⟩

/-!
### Claim C7 — compile failure terminates the session
-/

/-- C7.  When the compile stage reports failure, the session emits
`ready` then `compiled{success:false,...}`, invokes cleanup, and closes
4006; whatever the client sends afterwards, no `result` is ever emitted
and no test is counted. -/
theorem C7_compile_failure (resolve : String → String → Option Runtime)
    (body : InitBody) (j : Job) (c : Option StageRes)
    (runs : List (Except String StageRes))
    (batches : List (Except String BatchRes)) (cls : List (Option String))
    (rest : List InMsg) (hget : get_job resolve body = .ok j) :
    (runMsgs resolve (initSt (failOracle c runs batches cls))
        (.init body :: rest)).out
      = [.ready j.runtime.language j.runtime.version_raw j.runtime.compiled,
         .compiledMsg false (compile_time { success := false, compile := c })
           (compile_stdout { success := false, compile := c })
           (compile_stderr { success := false, compile := c })
           (compile_err { success := false, compile := c })] ∧
    (runMsgs resolve (initSt (failOracle c runs batches cls))
        (.init body :: rest)).closeCode = some 4006 ∧
    (runMsgs resolve (initSt (failOracle c runs batches cls))
        (.init body :: rest)).cleanupCalls = 1 ∧
    (runMsgs resolve (initSt (failOracle c runs batches cls))
        (.init body :: rest)).testCount = 0 ∧
    (runMsgs resolve (initSt (failOracle c runs batches cls))
        (.init body :: rest)).out.any OutMsg.isResult = false := by
  have hstep :
      step resolve (initSt (failOracle c runs batches cls)) (.init body)
      = { job := some j, testCount := 0, totalTime := 0, isCompiled := false,
          out := [.ready j.runtime.language j.runtime.version_raw
              j.runtime.compiled,
            .compiledMsg false (compile_time { success := false, compile := c })
              (compile_stdout { success := false, compile := c })
              (compile_stderr { success := false, compile := c })
              (compile_err { success := false, compile := c })],
          closeCode := some 4006, cleanupCalls := 1, calls := [],
          primeRes := .ok (),
          compileRes := .ok { success := false, compile := c },
          runs := runs, batches := batches, cleanups := cls } := by
    simp [step, handle, initSt, failOracle, hget, send, closeWs, doCleanup]
  have hfin :
      runMsgs resolve (initSt (failOracle c runs batches cls))
        (.init body :: rest)
      = step resolve (initSt (failOracle c runs batches cls)) (.init body) := by
    show runMsgs resolve
        (step resolve (initSt (failOracle c runs batches cls)) (.init body))
        rest = _
    rw [hstep]
    exact runMsgs_of_closed rfl rest
  rw [hfin, hstep]
  exact ⟨rfl, rfl, rfl, rfl, rfl⟩

/-- Witness for C7 at a concrete compiled runtime whose compile stage
fails, followed by a `run_test` on the closed session. -/
theorem C7_compile_failure_witness :
    (runMsgs resC
        (initSt (failOracle (some { stderr := "syntax error", wall_time := 12 })
          [] [] []))
        [.init bodyC,
         .run_test (.str "x") .undef .undef .undef .undef]).closeCode
      = some 4006 ∧
    (runMsgs resC
        (initSt (failOracle (some { stderr := "syntax error", wall_time := 12 })
          [] [] []))
        [.init bodyC,
         .run_test (.str "x") .undef .undef .undef .undef]).out.any
        OutMsg.isResult = false :=
  ⟨(C7_compile_failure resC bodyC jobC
      (some { stderr := "syntax error", wall_time := 12 }) [] [] []
      [.run_test (.str "x") .undef .undef .undef .undef] rfl).2.1,
   (C7_compile_failure resC bodyC jobC
      (some { stderr := "syntax error", wall_time := 12 }) [] [] []
      [.run_test (.str "x") .undef .undef .undef .undef] rfl).2.2.2.2⟩

/-!
### Claim C8 — message-ordering helper lemmas
-/

theorem handle_doneLast (resolve : String → String → Option Runtime)
    (job : Option Job) (tc tt : Int) (ic : Bool) (out0 : List OutMsg)
    (cc : Nat) (calls0 : List JobCall) (pr : Except String Unit)
    (cr : Except String CompileResult) (runs : List (Except String StageRes))
    (batches : List (Except String BatchRes)) (cls : List (Option String))
    (m : InMsg) :
    doneLast (handle resolve
      { job := job, testCount := tc, totalTime := tt, isCompiled := ic,
        out := out0, closeCode := none, cleanupCalls := cc, calls := calls0,
        primeRes := pr, compileRes := cr, runs := runs, batches := batches,
        cleanups := cls } m) := by
  cases m with
  | init body =>
    cases job with
    | some j => intro h9; simp [handle, closeWs] at h9
    | none =>
      cases hg : get_job resolve body with
      | error e => intro h9; simp [handle, hg, send, closeWs] at h9
      | ok j =>
        cases pr with
        | error e =>
          intro h9
          rcases cls with _ | ⟨_ | e2, cls'⟩ <;>
            simp [handle, hg, initCatch, send, closeWs, doCleanup] at h9
        | ok u =>
          cases cr with
          | error e =>
            intro h9
            rcases cls with _ | ⟨_ | e2, cls'⟩ <;>
              simp [handle, hg, initCatch, send, closeWs, doCleanup] at h9
          | ok cres =>
            obtain ⟨succ, comp⟩ := cres
            cases succ with
            | true => intro h9; simp [handle, hg, send] at h9
            | false =>
              intro h9
              rcases cls with _ | ⟨_ | e2, _ | ⟨_ | e3, cls''⟩⟩ <;>
                simp [handle, hg, initCatch, send, closeWs, doCleanup] at h9
  | run_test s i t1 c1 m1 =>
    intro h9
    cases job with
    | none => simp [handle, closeWs] at h9
    | some j =>
      cases ic with
      | false => simp [handle, send] at h9
      | true =>
        rcases runs with _ | ⟨_ | _, rs⟩ <;>
          simp [handle, send, takeRun] at h9
  | run_batch tcs t2 c2 m2 =>
    intro h9
    cases job with
    | none => simp [handle, closeWs] at h9
    | some j =>
      cases ic with
      | false => simp [handle, send] at h9
      | true =>
        rcases tcs with _ | _ | ⟨_ | ⟨k0, ks⟩⟩
        · simp [handle, send] at h9
        · simp [handle, send] at h9
        · simp [handle, send] at h9
        · rcases batches with _ | ⟨_ | _, bs⟩ <;>
            simp [handle, send, takeBatch] at h9
  | close =>
    cases job with
    | none =>
      intro h9
      exact ⟨tc, tt, by simp [handle, send, closeWs]⟩
    | some j =>
      intro h9
      rcases cls with _ | ⟨_ | e2, cls'⟩
      · exact ⟨tc, tt, by simp [handle, send, closeWs, doCleanup]⟩
      · exact ⟨tc, tt, by simp [handle, send, closeWs, doCleanup]⟩
      · simp [handle, send, closeWs, doCleanup] at h9
  | unknown ty => intro h9; simp [handle, send] at h9
  | malformed e => intro h9; simp [handle, send, closeWs] at h9

theorem step_doneLast (resolve : String → String → Option Runtime)
    (st : St) (m : InMsg) (h : doneLast st) :
    doneLast (step resolve st m) := by
  cases hc : st.closeCode with
  | some c => rw [step_of_closed hc]; exact h
  | none =>
    have hstep : step resolve st m = handle resolve st m := by
      simp [step, hc]
    have hst : st =
        { job := st.job, testCount := st.testCount, totalTime := st.totalTime,
          isCompiled := st.isCompiled, out := st.out, closeCode := none,
          cleanupCalls := st.cleanupCalls, calls := st.calls,
          primeRes := st.primeRes, compileRes := st.compileRes,
          runs := st.runs, batches := st.batches,
          cleanups := st.cleanups } := by
      rw [← hc]
    rw [hstep, hst]
    exact handle_doneLast resolve st.job st.testCount st.totalTime
      st.isCompiled st.out st.cleanupCalls st.calls st.primeRes st.compileRes
      st.runs st.batches st.cleanups m

theorem runMsgs_doneLast (resolve : String → String → Option Runtime)
    (msgs : List InMsg) (st : St) (h : doneLast st) :
    doneLast (runMsgs resolve st msgs) := by
  induction msgs generalizing st with
  | nil => exact h
  | cons m rest ih => exact ih (step resolve st m) (step_doneLast resolve st m h)

/-!
### Claim C8 — strict serialization
-/

/-- C8 counterexample.  The async message handler is not awaited by the
transport, so two `run_test` handlers can be in flight at once; under the
schedule `ev8` (the second test's process finishes first) the `result`
for `run_test` with client id 20 — the later message — is emitted before
the `result` for the earlier message with id 10, violating the claimed
serial order. -/
theorem C8_counterexample :
    (cExec res0 (cInit orc8) ev8).base.out =
      [.ready "python" "3.10.0" false, .compiledMsg true 0 "" "" .null,
       .result (.num 20) "b" "" .null .null .null .null 5 0 0,
       .result (.num 10) "a" "" .null .null .null .null 100 0 0] ∧
    (cExec res0 (cInit orc8) ev8).base.out ≠
      [.ready "python" "3.10.0" false, .compiledMsg true 0 "" "" .null,
       .result (.num 10) "a" "" .null .null .null .null 100 0 0,
       .result (.num 20) "b" "" .null .null .null .null 5 0 0] :=
  ⟨rfl, by decide⟩

/-- C8 amended.  Inbound handlers are async functions the transport does
not await, so strict serialization does NOT hold in general (see the
counterexample); the claimed ordering holds for the schedule in which each
message's handler runs to completion before the next frame arrives (the
sequential semantics `runMsgs`): there, whenever the session closes 4999
the final outbound message is `done`, and a successful `init` appends
`ready` immediately followed by `compiled`. -/
theorem C8_sequential_order :
    (∀ (resolve : String → String → Option Runtime) (o : Oracle)
        (msgs : List InMsg),
      (runMsgs resolve (initSt o) msgs).closeCode = some 4999 →
      ∃ c t, (runMsgs resolve (initSt o) msgs).out.getLast?
        = some (.done c t)) ∧
    (∀ (resolve : String → String → Option Runtime) (body : InitBody)
        (j : Job) (comp : Option StageRes) (tc tt : Int) (ic : Bool)
        (out0 : List OutMsg) (cc : Nat) (calls0 : List JobCall)
        (runs : List (Except String StageRes))
        (batches : List (Except String BatchRes))
        (cls : List (Option String)),
      get_job resolve body = .ok j →
      (step resolve (openSt tc tt ic out0 cc calls0 (.ok ())
          (.ok { success := true, compile := comp }) runs batches cls)
          (.init body)).out
        = out0 ++
          [.ready j.runtime.language j.runtime.version_raw j.runtime.compiled,
           .compiledMsg true (compile_time { success := true, compile := comp })
             (compile_stdout { success := true, compile := comp })
             (compile_stderr { success := true, compile := comp })
             (compile_err { success := true, compile := comp })]) := by
  constructor
  · intro resolve o msgs h4999
    have hd : doneLast (runMsgs resolve (initSt o) msgs) := by
      refine runMsgs_doneLast resolve msgs (initSt o) ?_
      intro hcontra
      simp [initSt] at hcontra
    exact hd h4999
  · intro resolve body j comp tc tt ic out0 cc calls0 runs batches cls hget
    simp [step, handle, openSt, hget, send]

/-- Witness for C8's amended theorem at a concrete 4999-closing session
and a concrete successful `init`. -/
theorem C8_sequential_order_witness :
    (∃ c t, (runMsgs res0 (initSt orc1) trace1).out.getLast?
      = some (OutMsg.done c t)) ∧
    (step res0 (openSt 0 0 false [] 0 [] (.ok ())
        (.ok { success := true, compile := none }) [] [] [])
        (.init okBody)).out
      = [] ++ [.ready "python" "3.10.0" false,
               .compiledMsg true 0 "" "" .null] :=
  ⟨C8_sequential_order.1 res0 orc1 trace1 rfl,
   C8_sequential_order.2 res0 okBody job1 none 0 0 false [] 0 [] [] [] []
     rfl⟩

end Piston
